import Mathlib

/-!
# Verification of the mini banking platform's double-entry core

A shallow embedding of the Go backend's domain layer (Money, Account,
ExchangeRate, transfer/exchange domain services, ledger-entry builders),
its repositories-over-a-database model, and the application service, with
theorems settling the spec claims.

Modelling conventions:
* `shopspring/decimal` values are arbitrary-precision decimals; every
  operation the code uses (`Add`, `Sub`, `Neg`, `Mul`, `LessThan`,
  `IsZero`, `IsNegative`, `Equal`) is exact, so decimals are embedded as
  rationals `ℚ`.  `Decimal.Round(n)` rounds half away from zero at `n`
  decimal places and `Decimal.Div` rounds the quotient half away from
  zero at `DivisionPrecision = 16` places; both are modelled explicitly.
* Go's `Currency` is a string type (`type Currency string`) whose
  `IsValid` tests membership in {USD, EUR}; it is embedded as `String`.
* UUIDs are opaque identifiers, embedded as `ℕ` (a UUID is a 128-bit
  number); the reserved cashbook ids `...0001`, `...0010`, `...0011`
  become `1`, `0x10`, `0x11`.  Randomly generated fresh ids are threaded
  through an explicit `IdSupply` argument, since no behaviour of the
  code under verification depends on their values.
* Go errors are values matched with `errors.As`, which sees through
  `fmt.Errorf("...: %w", err)` wrapping; the wrapping context strings
  are therefore dropped and each distinct error kind is a constructor of
  the `Err` type below.
* Pointer-mutating Go methods become state-passing functions returning
  the updated value; the database session becomes an explicit `Db` value
  threaded through the application service, and `trm.Do` rollback is the
  service returning the original `Db` on error.
-/

namespace MiniBanking

/-! ## Decimal arithmetic (shopspring/decimal) -/

/-- Round a rational to the nearest integer, ties away from zero: the
rounding mode of `decimal.Decimal.Round` and `DivRound`. -/
def roundTiesAway (x : ℚ) : ℤ :=
  if 0 ≤ x then ⌊x + 1/2⌋ else -⌊-x + 1/2⌋

/-- `decimal.Round(places)`: round half away from zero at `places`
decimal places. -/
def roundD (places : ℕ) (x : ℚ) : ℚ :=
  (roundTiesAway (x * 10 ^ places) : ℚ) / 10 ^ places

/-- `decimal.Div`: the quotient rounded half away from zero at
`decimal.DivisionPrecision = 16` decimal places.  Division by zero
panics in Go; it is given the junk value 0 here and is unreachable in
the verified paths. -/
def divD (x y : ℚ) : ℚ :=
  if y = 0 then 0 else roundD 16 (x / y)

/-! ## Currency and identifiers -/

/-- Go's `type Currency string` (domain/money.go). -/
abbrev Currency := String

def CurrencyUSD : Currency := "USD"

def CurrencyEUR : Currency := "EUR"

/-- go-enum generated `Currency.IsValid`: membership in {USD, EUR}. -/
def Currency.IsValid (c : Currency) : Bool :=
  c == CurrencyUSD || c == CurrencyEUR

abbrev AccountID := ℕ

abbrev UserID := ℕ

/-- Reserved system user `00000000-0000-0000-0000-000000000001`
(domain/cashbook.go). -/
def CashbookUserID : UserID := 1

/-- USD cashbook account `...0010` (domain/cashbook.go). -/
def CashbookUSD : AccountID := 0x10

/-- EUR cashbook account `...0011` (domain/cashbook.go). -/
def CashbookEUR : AccountID := 0x11

/-- `domain.GetCashbookAccount` (domain/cashbook.go): switch on the
currency with `CashbookUSD` as the default branch. -/
def GetCashbookAccount (currency : Currency) : AccountID :=
  if currency = CurrencyUSD then CashbookUSD
  else if currency = CurrencyEUR then CashbookEUR
  else CashbookUSD

/-! ## Errors

One constructor per distinct Go error kind reached by the embedded
code, with the payloads its constructor records.  `fmt.Errorf` context
wrapping is dropped (`errors.As` matching sees through it); anonymous
`fmt.Errorf` errors with no dedicated type get argument-free
constructors named after their message. -/

structure MoneyV where
  amount : ℚ
  currency : Currency
deriving DecidableEq, Repr

inductive Err where
  /-- `domain.CurrencyMismatchError` (first = expected, second = actual). -/
  | currencyMismatch (first second : Currency)
  /-- `domain.UnsupportedCurrencyError`. -/
  | unsupportedCurrency (c : Currency)
  /-- `domain.NegativeTransferError`. -/
  | negativeTransfer (money : MoneyV)
  /-- `domain.NegativeExchangeError`. -/
  | negativeExchange (money : MoneyV)
  /-- `fmt.Errorf("exchange amount cannot be zero")` in ExchangeService. -/
  | zeroExchange
  /-- `domain.SameCurrencyExchangeError`. -/
  | sameCurrencyExchange (c : Currency)
  /-- `domain.SameCurrencyExchangeRateError`. -/
  | sameCurrencyExchangeRate (c : Currency)
  /-- `domain.InvalidExchangeRateError`. -/
  | invalidExchangeRate (rate : ℚ)
  /-- `domain.ExchangeRateNotFoundError`. -/
  | exchangeRateNotFound (src dst : Currency)
  /-- `domain.InsufficientFundsError` (accountID, requested, available). -/
  | insufficientFunds (accountID : AccountID) (requested available : ℚ)
  /-- `domain.AccountNotFoundError`. -/
  | accountNotFound (accountID : AccountID)
  /-- `domain.LedgerImbalanceError` (currency, sum). -/
  | ledgerImbalance (c : Currency) (sum : ℚ)
  /-- `domain.AccountBalanceMismatchError` (accountID, accountBalance, ledgerBalance). -/
  | accountBalanceMismatch (accountID : AccountID) (accountBalance ledgerBalance : ℚ)
  /-- `fmt.Errorf("sum of two ledger records at the same transaction is not zero")`. -/
  | ledgerEntryNotZero
  /-- `fmt.Errorf("ledger entry does not balance (sum=%s)")` in validateBalancedEntry. -/
  | ledgerEntryUnbalanced (sum : ℚ)
  /-- `fmt.Errorf("source and target currencies must be different")` in NewExchangeDetails. -/
  | exchangeDetailsSameCurrency
  /-- Database CHECK constraint `transfer_positive_amount` (migration 000001). -/
  | transferPositiveAmountCheck
  /-- Database CHECK constraint `exchange_positive_source_amount`. -/
  | exchangePositiveSourceAmountCheck
  /-- Database CHECK constraint `exchange_positive_target_amount`. -/
  | exchangePositiveTargetAmountCheck
  /-- Database CHECK constraint `exchange_positive_rate`. -/
  | exchangePositiveRateCheck
  /-- Database CHECK constraint `exchange_different_currencies`. -/
  | exchangeDifferentCurrenciesCheck
deriving DecidableEq, Repr

/-! ## Money (domain/money.go) -/

/-- `domain.Money`: an amount with a currency. -/
abbrev Money := MoneyV

/-- `domain.NewMoney`. -/
def NewMoney (amount : ℚ) (currency : Currency) : Except Err Money :=
  if ¬ currency.IsValid then .error (.unsupportedCurrency currency)
  else .ok ⟨amount, currency⟩

/-- `Money.CheckIsNotEqualCurrencies`. -/
def Money.CheckIsNotEqualCurrencies (m other : Money) : Except Err Unit :=
  if m.currency ≠ other.currency then
    .error (.currencyMismatch m.currency other.currency)
  else .ok ()

/-- `Money.LessThan` (comparison is an error across currencies). -/
def Money.LessThan (m other : Money) : Except Err Bool :=
  match m.CheckIsNotEqualCurrencies other with
  | .error e => .error e
  | .ok _ => .ok (decide (m.amount < other.amount))

/-- `Money.Add`. -/
def Money.Add (m other : Money) : Except Err Money :=
  match m.CheckIsNotEqualCurrencies other with
  | .error e => .error e
  | .ok _ => .ok ⟨m.amount + other.amount, m.currency⟩

/-- `Money.Sub`. -/
def Money.Sub (m other : Money) : Except Err Money :=
  match m.CheckIsNotEqualCurrencies other with
  | .error e => .error e
  | .ok _ => .ok ⟨m.amount - other.amount, m.currency⟩

/-- `Money.ToNegative`. -/
def Money.ToNegative (m : Money) : Money := ⟨-m.amount, m.currency⟩

/-- `Money.IsNegative`. -/
def Money.IsNegative (m : Money) : Bool := decide (m.amount < 0)

/-- `Money.IsZero`. -/
def Money.IsZero (m : Money) : Bool := m.amount == 0

/-! ## Account (domain/account.go) -/

/-- `domain.Account`: id, owner, balance. -/
structure Account where
  id : AccountID
  userID : UserID
  balance : Money
deriving DecidableEq, Repr

/-- `Account.IsCashbook`: the owner is the reserved cashbook user. -/
def Account.IsCashbook (a : Account) : Bool := a.userID == CashbookUserID

/-- `Account.Credit`: balance := balance + money (currency-checked by `Add`). -/
def Account.Credit (a : Account) (money : Money) : Except Err Account :=
  match a.balance.Add money with
  | .error e => .error e
  | .ok updated => .ok { a with balance := updated }

/-- `Account.Debit`: insufficient-funds guard on the raw decimal amounts
(`a.balance.Amount().LessThan(money.Amount())`, no currency check), then
a currency-checked `Sub`. -/
def Account.Debit (a : Account) (money : Money) : Except Err Account :=
  if a.IsCashbook = false ∧ a.balance.amount < money.amount then
    .error (.insufficientFunds a.id money.amount a.balance.amount)
  else
    match a.balance.Sub money with
    | .error e => .error e
    | .ok updated => .ok { a with balance := updated }

/-! ## ExchangeRate (domain/exchange_rate.go) -/

/-- `domain.ExchangeRate`. -/
structure ExchangeRate where
  src : Currency
  dst : Currency
  rate : ℚ
deriving DecidableEq, Repr

/-- `domain.NewExchangeRate`. -/
def NewExchangeRate (src dst : Currency) (rate : ℚ) : Except Err ExchangeRate :=
  if src = dst then .error (.sameCurrencyExchangeRate src)
  else if ¬ src.IsValid then .error (.unsupportedCurrency src)
  else if ¬ dst.IsValid then .error (.unsupportedCurrency dst)
  else if rate < 0 ∨ rate = 0 then .error (.invalidExchangeRate rate)
  else .ok ⟨src, dst, rate⟩

/-- `ExchangeRate.Convert`: currency check, multiply, `Round(2)`,
then `NewMoney` in the target currency. -/
def ExchangeRate.Convert (e : ExchangeRate) (amount : Money) : Except Err Money :=
  if amount.currency ≠ e.src then
    .error (.currencyMismatch e.src amount.currency)
  else
    NewMoney (roundD 2 (amount.amount * e.rate)) e.dst

/-- `infrastructure.FixedExchangeRateProvider.GetRate`, holding the
configured USD→EUR rate. -/
def FixedExchangeRateProviderGetRate (usdToEurRate : ℚ)
    (src dst : Currency) : Except Err ExchangeRate :=
  if src = dst then .error (.sameCurrencyExchangeRate src)
  else if src = CurrencyUSD ∧ dst = CurrencyEUR then
    NewExchangeRate src dst usdToEurRate
  else if src = CurrencyEUR ∧ dst = CurrencyUSD then
    NewExchangeRate src dst (roundD 6 (divD 1 usdToEurRate))
  else .error (.exchangeRateNotFound src dst)

/-! ## Transactions and ledger records (domain/transaction.go, domain/ledger.go) -/

inductive TransactionType where
  | transfer
  | exchange
  | deposit
  | withdrawal
deriving DecidableEq, Repr

/-- `domain.Transaction`: the anchor row of each operation. -/
structure Transaction where
  id : ℕ
  ttype : TransactionType
  accountID : AccountID
  time : ℕ
deriving DecidableEq, Repr

/-- `domain.LedgerRecord`. -/
structure LedgerRecord where
  id : ℕ
  transaction : ℕ
  account : AccountID
  money : Money
  time : ℕ
deriving DecidableEq, Repr

/-- `domain.LedgerEntry`: a two-record balanced entry. -/
abbrev LedgerEntry := LedgerRecord × LedgerRecord

/-- `domain.ExchangeLedgerEntries`: the two balanced entries of an exchange. -/
structure ExchangeLedgerEntries where
  SourceCurrencyEntry : LedgerEntry
  TargetCurrencyEntry : LedgerEntry
deriving DecidableEq, Repr

/-- `ExchangeLedgerEntries.Records`. -/
def ExchangeLedgerEntries.Records (e : ExchangeLedgerEntries) : List LedgerRecord :=
  [e.SourceCurrencyEntry.1, e.SourceCurrencyEntry.2,
   e.TargetCurrencyEntry.1, e.TargetCurrencyEntry.2]

/-- The fresh random identifiers an operation draws (`uuid.New()` at each
construction site); no verified behaviour depends on their values. -/
structure IdSupply where
  detailsId : ℕ
  txId : ℕ
  l1 : ℕ
  l2 : ℕ
  l3 : ℕ
  l4 : ℕ
deriving DecidableEq, Repr

/-! ## Transfer domain service (domain/transfer.go) -/

/-- `domain.TransferDetails`. -/
structure TransferDetails where
  id : ℕ
  transaction : Transaction
  recipient : AccountID
  money : Money
  time : ℕ
deriving DecidableEq, Repr

/-- `domain.NewTransferDetails` (the Go constructor never fails). -/
def NewTransferDetails (detailsId txId : ℕ) (src dst : AccountID)
    (money : Money) (time : ℕ) : TransferDetails :=
  ⟨detailsId, ⟨txId, .transfer, src, time⟩, dst, money, time⟩

/-- `TransferDetails.TransactionID`. -/
def TransferDetails.TransactionID (td : TransferDetails) : ℕ := td.transaction.id

/-- `TransferDetails.Sender`: the account the transaction is anchored on. -/
def TransferDetails.Sender (td : TransferDetails) : AccountID := td.transaction.accountID

/-- `TransferDetails.GetLedgerEntry`: build `(sender, −money)` and
`(recipient, +money)` and verify they sum to zero. -/
def TransferDetails.GetLedgerEntry (td : TransferDetails) (l1 l2 : ℕ) :
    Except Err LedgerEntry :=
  let first : LedgerRecord := ⟨l1, td.TransactionID, td.Sender, td.money.ToNegative, td.time⟩
  let second : LedgerRecord := ⟨l2, td.TransactionID, td.recipient, td.money, td.time⟩
  match first.money.Add second.money with
  | .error e => .error e
  | .ok sum =>
    if ¬ sum.IsZero then .error .ledgerEntryNotZero
    else .ok (first, second)

/-- `domain.TransferService.Execute`: reject negatives, debit sender,
credit recipient, build the descriptor. -/
def TransferServiceExecute (sup : IdSupply) (src dst : Account)
    (money : Money) (now : ℕ) : Except Err (TransferDetails × Account × Account) :=
  if money.IsNegative then .error (.negativeTransfer money)
  else
    match src.Debit money with
    | .error e => .error e
    | .ok src' =>
      match dst.Credit money with
      | .error e => .error e
      | .ok dst' =>
        .ok (NewTransferDetails sup.detailsId sup.txId src.id dst.id money now, src', dst')

/-! ## Exchange domain service (domain/exchange.go) -/

/-- `domain.ExchangeDetails`. -/
structure ExchangeDetails where
  id : ℕ
  transaction : Transaction
  sourceAccount : AccountID
  targetAccount : AccountID
  sourceAmount : Money
  targetAmount : Money
  time : ℕ
deriving DecidableEq, Repr

/-- `domain.NewExchangeDetails`: rejects equal source/target currencies. -/
def NewExchangeDetails (detailsId txId : ℕ) (sourceAccount targetAccount : AccountID)
    (sourceAmount targetAmount : Money) (time : ℕ) : Except Err ExchangeDetails :=
  if sourceAmount.currency = targetAmount.currency then
    .error .exchangeDetailsSameCurrency
  else
    .ok ⟨detailsId, ⟨txId, .exchange, sourceAccount, time⟩,
         sourceAccount, targetAccount, sourceAmount, targetAmount, time⟩

/-- `ExchangeDetails.TransactionID`. -/
def ExchangeDetails.TransactionID (ed : ExchangeDetails) : ℕ := ed.transaction.id

/-- `ExchangeDetails.ExchangeRate`: `targetAmount / sourceAmount`
(`decimal.Div`, stored for reporting). -/
def ExchangeDetails.ExchangeRateValue (ed : ExchangeDetails) : ℚ :=
  divD ed.targetAmount.amount ed.sourceAmount.amount

/-- `validateBalancedEntry` (domain/exchange.go). -/
def validateBalancedEntry (a b : LedgerRecord) : Except Err Unit :=
  match a.money.Add b.money with
  | .error e => .error e
  | .ok sum =>
    if ¬ sum.IsZero then .error (.ledgerEntryUnbalanced sum.amount)
    else .ok ()

/-- `ExchangeDetails.buildSourceCurrencyEntry`:
`(source, −sourceAmount)` + `(cashbook, +sourceAmount)`. -/
def ExchangeDetails.buildSourceCurrencyEntry (ed : ExchangeDetails)
    (cashbook : AccountID) (l1 l2 : ℕ) : Except Err LedgerEntry :=
  let userDebit : LedgerRecord :=
    ⟨l1, ed.TransactionID, ed.sourceAccount, ed.sourceAmount.ToNegative, ed.time⟩
  let cashbookCredit : LedgerRecord :=
    ⟨l2, ed.TransactionID, cashbook, ed.sourceAmount, ed.time⟩
  match validateBalancedEntry userDebit cashbookCredit with
  | .error e => .error e
  | .ok _ => .ok (userDebit, cashbookCredit)

/-- `ExchangeDetails.buildTargetCurrencyEntry`:
`(cashbook, −targetAmount)` + `(target, +targetAmount)`. -/
def ExchangeDetails.buildTargetCurrencyEntry (ed : ExchangeDetails)
    (cashbook : AccountID) (l3 l4 : ℕ) : Except Err LedgerEntry :=
  let cashbookDebit : LedgerRecord :=
    ⟨l3, ed.TransactionID, cashbook, ed.targetAmount.ToNegative, ed.time⟩
  let userCredit : LedgerRecord :=
    ⟨l4, ed.TransactionID, ed.targetAccount, ed.targetAmount, ed.time⟩
  match validateBalancedEntry cashbookDebit userCredit with
  | .error e => .error e
  | .ok _ => .ok (cashbookDebit, userCredit)

/-- `ExchangeDetails.GetLedgerEntries`: one balanced entry per currency,
against the cashbook account of that currency. -/
def ExchangeDetails.GetLedgerEntries (ed : ExchangeDetails) (l1 l2 l3 l4 : ℕ) :
    Except Err ExchangeLedgerEntries :=
  let sourceCashbook := GetCashbookAccount ed.sourceAmount.currency
  let targetCashbook := GetCashbookAccount ed.targetAmount.currency
  match ed.buildSourceCurrencyEntry sourceCashbook l1 l2 with
  | .error e => .error e
  | .ok sourceCurrencyEntry =>
    match ed.buildTargetCurrencyEntry targetCashbook l3 l4 with
    | .error e => .error e
    | .ok targetCurrencyEntry =>
      .ok ⟨sourceCurrencyEntry, targetCurrencyEntry⟩

/-- `domain.CalculateExchangeAmount`. -/
def CalculateExchangeAmount (sourceAmount : Money) (exchangeRate : ExchangeRate) :
    Except Err Money :=
  exchangeRate.Convert sourceAmount

/-- `getCashbookForCurrency`: the USD cashbook for USD, the EUR cashbook
otherwise.  The two cashbook aggregates are threaded as a pair so that a
second selection of the same cashbook observes the first mutation, as the
shared Go pointers would. -/
def creditCashbookFor (cb : Account × Account) (c : Currency) (money : Money) :
    Except Err (Account × Account) :=
  if c = CurrencyUSD then
    match cb.1.Credit money with
    | .error e => .error e
    | .ok a => .ok (a, cb.2)
  else
    match cb.2.Credit money with
    | .error e => .error e
    | .ok a => .ok (cb.1, a)

/-- Debit counterpart of `creditCashbookFor`. -/
def debitCashbookFor (cb : Account × Account) (c : Currency) (money : Money) :
    Except Err (Account × Account) :=
  if c = CurrencyUSD then
    match cb.1.Debit money with
    | .error e => .error e
    | .ok a => .ok (a, cb.2)
  else
    match cb.2.Debit money with
    | .error e => .error e
    | .ok a => .ok (cb.1, a)

/-- `domain.ExchangeService.Execute`: validations, the four balance
mutations in order (debit source, credit target, credit source-currency
cashbook, debit target-currency cashbook), then the descriptor. -/
def ExchangeServiceExecute (sup : IdSupply)
    (sourceAccount targetAccount cashbookUSDAcc cashbookEURAcc : Account)
    (sourceAmount : Money) (exchangeRate : ExchangeRate) (now : ℕ) :
    Except Err (ExchangeDetails × Account × Account × Account × Account) :=
  if sourceAmount.IsNegative then .error (.negativeExchange sourceAmount)
  else if sourceAmount.IsZero then .error .zeroExchange
  else if sourceAccount.balance.currency = targetAccount.balance.currency then
    .error (.sameCurrencyExchange sourceAccount.balance.currency)
  else if exchangeRate.src ≠ sourceAmount.currency then
    .error (.currencyMismatch exchangeRate.src sourceAmount.currency)
  else if exchangeRate.dst ≠ targetAccount.balance.currency then
    .error (.currencyMismatch exchangeRate.dst targetAccount.balance.currency)
  else
    match CalculateExchangeAmount sourceAmount exchangeRate with
    | .error e => .error e
    | .ok targetAmount =>
      match sourceAccount.Debit sourceAmount with
      | .error e => .error e
      | .ok sourceAccount' =>
        match targetAccount.Credit targetAmount with
        | .error e => .error e
        | .ok targetAccount' =>
          match creditCashbookFor (cashbookUSDAcc, cashbookEURAcc)
              sourceAmount.currency sourceAmount with
          | .error e => .error e
          | .ok cb1 =>
            match debitCashbookFor cb1 targetAmount.currency targetAmount with
            | .error e => .error e
            | .ok cb2 =>
              match NewExchangeDetails sup.detailsId sup.txId
                  sourceAccount.id targetAccount.id sourceAmount targetAmount now with
              | .error e => .error e
              | .ok exchange =>
                .ok (exchange, sourceAccount', targetAccount', cb2.1, cb2.2)

/-! ## Database state and repositories

The per-unit-of-work view of the relevant tables.  The schema's CHECK
constraints that can reject the embedded operations are modelled at the
insert; foreign keys and column storage precision are not exercised by
the verified claims. -/

structure Db where
  accounts : List Account
  transactions : List Transaction
  transferRows : List TransferDetails
  exchangeRows : List ExchangeDetails
  ledger : List LedgerRecord
deriving DecidableEq, Repr

/-- `AccountsRepository.GetForUpdate`: `SELECT ... FOR UPDATE`, returning
a fresh in-memory aggregate built from the row, or `AccountNotFound`. -/
def dbGetForUpdate (db : Db) (accountID : AccountID) : Except Err Account :=
  match db.accounts.find? (fun a => a.id == accountID) with
  | some a => .ok a
  | none => .error (.accountNotFound accountID)

/-- `AccountsRepository.Save`: upsert keyed on id; on conflict only
balance and currency are updated. -/
def dbSave (db : Db) (account : Account) : Db :=
  if db.accounts.any (fun a => a.id == account.id) then
    let upd := fun a =>
      if a.id == account.id then { a with balance := account.balance } else a
    { db with accounts := db.accounts.map upd }
  else
    { db with accounts := db.accounts ++ [account] }

/-- `SUM(amount)` over the rows of one currency in a ledger row list. -/
def sumAmountsCurrency (l : List LedgerRecord) (c : Currency) : ℚ :=
  ((l.filter (fun r => r.money.currency == c)).map (fun r => r.money.amount)).sum

/-- `SUM(amount)` over the rows of one account in a ledger row list. -/
def sumAmountsAccount (l : List LedgerRecord) (accountID : AccountID) : ℚ :=
  ((l.filter (fun r => r.account == accountID)).map (fun r => r.money.amount)).sum

/-- `SUM(amount)` over ledger rows of one currency
(`LedgerRepository.GetTotalBalanceByCurrency`, per group). -/
def ledgerSumCurrency (db : Db) (c : Currency) : ℚ :=
  sumAmountsCurrency db.ledger c

/-- `SUM(amount)` over ledger rows of one account
(`LedgerRepository.GetAccountBalance`; the query does not filter on
currency). -/
def ledgerSumAccount (db : Db) (accountID : AccountID) : ℚ :=
  sumAmountsAccount db.ledger accountID

/-- The currencies present in the ledger (the `GROUP BY currency` key
set).  Go iterates the resulting map in unspecified order; a fixed
first-occurrence order is used here. -/
def ledgerCurrencies (db : Db) : List Currency :=
  (db.ledger.map (fun r => r.money.currency)).dedup

/-- `TransfersRepository.Insert`: the transaction row, the details row
(subject to CHECK `transfer_positive_amount`), and the two-record ledger
entry, as one unit. -/
def transfersInsert (l1 l2 : ℕ) (db : Db) (t : TransferDetails) : Except Err Db :=
  let db1 := { db with transactions := db.transactions ++ [t.transaction] }
  if ¬ (0 < t.money.amount) then .error .transferPositiveAmountCheck
  else
    let db2 := { db1 with transferRows := db1.transferRows ++ [t] }
    match t.GetLedgerEntry l1 l2 with
    | .error e => .error e
    | .ok entry =>
      .ok { db2 with ledger := db2.ledger ++ [entry.1, entry.2] }

/-- `ExchangesRepository.Insert`: the transaction row, the details row
(subject to the four exchange CHECK constraints), and the four ledger
records of the two balanced entries, as one unit. -/
def exchangesInsert (l1 l2 l3 l4 : ℕ) (db : Db) (e : ExchangeDetails) : Except Err Db :=
  let db1 := { db with transactions := db.transactions ++ [e.transaction] }
  if ¬ (0 < e.sourceAmount.amount) then .error .exchangePositiveSourceAmountCheck
  else if ¬ (0 < e.targetAmount.amount) then .error .exchangePositiveTargetAmountCheck
  else if ¬ (0 < e.ExchangeRateValue) then .error .exchangePositiveRateCheck
  else if e.sourceAmount.currency = e.targetAmount.currency then
    .error .exchangeDifferentCurrenciesCheck
  else
    let db2 := { db1 with exchangeRows := db1.exchangeRows ++ [e] }
    match e.GetLedgerEntries l1 l2 l3 l4 with
    | .error e' => .error e'
    | .ok entries =>
      .ok { db2 with ledger := db2.ledger ++ entries.Records }

/-! ## Invariant checks (service/reconcile.go) -/

/-- `Service.CheckLedgerBalanceByCurrency`: fail with `LedgerImbalance`
on the first currency whose ledger total is non-zero. -/
def checkLedgerBalanceByCurrency (db : Db) : Except Err Unit :=
  match (ledgerCurrencies db).find? (fun c => ¬ (ledgerSumCurrency db c = 0)) with
  | some c => .error (.ledgerImbalance c (ledgerSumCurrency db c))
  | none => .ok ()

/-- `Service.checkAccountLedgerConsistency`: the in-memory balance must
equal the account's ledger sum. -/
def checkAccountLedgerConsistency (db : Db) (account : Account) : Except Err Unit :=
  let ledgerBalance := ledgerSumAccount db account.id
  if ¬ (ledgerBalance = account.balance.amount) then
    .error (.accountBalanceMismatch account.id account.balance.amount ledgerBalance)
  else .ok ()

/-! ## Application service (service/accounts.go, service/transfer.go,
service/exchange.go)

Each method is one unit of work: the returned `Db` is the committed
state (the original `Db` on any error, modelling `trm.Do` rollback), and
the returned list is the sequence of successful `GetForUpdate` row-lock
acquisitions, in order. -/

structure TransferCommand where
  src : AccountID
  dst : AccountID
  money : Money
  time : ℕ
deriving DecidableEq, Repr

structure ExchangeCommand where
  sourceAccount : AccountID
  targetAccount : AccountID
  sourceAmount : Money
  time : ℕ
deriving DecidableEq, Repr

/-- `Service.Transfer`: lock `from`, lock `to`, run the transfer domain
service, insert, save both accounts, run the I1 and I2 checks. -/
def ServiceTransfer (sup : IdSupply) (db : Db) (cmd : TransferCommand) :
    Except Err Unit × Db × List AccountID :=
  match dbGetForUpdate db cmd.src with
  | .error e => (.error e, db, [])
  | .ok srcAcc =>
    match dbGetForUpdate db cmd.dst with
    | .error e => (.error e, db, [cmd.src])
    | .ok dstAcc =>
      let locks := [cmd.src, cmd.dst]
      match TransferServiceExecute sup srcAcc dstAcc cmd.money cmd.time with
      | .error e => (.error e, db, locks)
      | .ok (details, srcAcc', dstAcc') =>
        match transfersInsert sup.l1 sup.l2 db details with
        | .error e => (.error e, db, locks)
        | .ok db1 =>
          let db2 := dbSave db1 srcAcc'
          let db3 := dbSave db2 dstAcc'
          match checkLedgerBalanceByCurrency db3 with
          | .error e => (.error e, db, locks)
          | .ok _ =>
            match checkAccountLedgerConsistency db3 srcAcc' with
            | .error e => (.error e, db, locks)
            | .ok _ =>
              match checkAccountLedgerConsistency db3 dstAcc' with
              | .error e => (.error e, db, locks)
              | .ok _ => (.ok (), db3, locks)

/-- `Service.Exchange` with the fixed rate provider configured at
`usdToEurRate`: lock source, target, USD cashbook, EUR cashbook in that
order; fetch the rate; run the exchange domain service; insert; save the
four accounts; run the I1 and I2 checks. -/
def ServiceExchange (usdToEurRate : ℚ) (sup : IdSupply) (db : Db)
    (cmd : ExchangeCommand) : Except Err Unit × Db × List AccountID :=
  match dbGetForUpdate db cmd.sourceAccount with
  | .error e => (.error e, db, [])
  | .ok sourceAccount =>
    match dbGetForUpdate db cmd.targetAccount with
    | .error e => (.error e, db, [cmd.sourceAccount])
    | .ok targetAccount =>
      match dbGetForUpdate db (GetCashbookAccount CurrencyUSD) with
      | .error e => (.error e, db, [cmd.sourceAccount, cmd.targetAccount])
      | .ok usdCashbookAccount =>
        match dbGetForUpdate db (GetCashbookAccount CurrencyEUR) with
        | .error e => (.error e, db,
            [cmd.sourceAccount, cmd.targetAccount, GetCashbookAccount CurrencyUSD])
        | .ok eurCashbookAccount =>
          let locks := [cmd.sourceAccount, cmd.targetAccount,
            GetCashbookAccount CurrencyUSD, GetCashbookAccount CurrencyEUR]
          match FixedExchangeRateProviderGetRate usdToEurRate
              cmd.sourceAmount.currency targetAccount.balance.currency with
          | .error e => (.error e, db, locks)
          | .ok exchangeRate =>
            match ExchangeServiceExecute sup sourceAccount targetAccount
                usdCashbookAccount eurCashbookAccount
                cmd.sourceAmount exchangeRate cmd.time with
            | .error e => (.error e, db, locks)
            | .ok (details, sourceAccount', targetAccount', usdCb', eurCb') =>
              match exchangesInsert sup.l1 sup.l2 sup.l3 sup.l4 db details with
              | .error e => (.error e, db, locks)
              | .ok db1 =>
                let db2 := dbSave db1 sourceAccount'
                let db3 := dbSave db2 targetAccount'
                let db4 := dbSave db3 usdCb'
                let db5 := dbSave db4 eurCb'
                match checkLedgerBalanceByCurrency db5 with
                | .error e => (.error e, db, locks)
                | .ok _ =>
                  match checkAccountLedgerConsistency db5 sourceAccount' with
                  | .error e => (.error e, db, locks)
                  | .ok _ =>
                    match checkAccountLedgerConsistency db5 targetAccount' with
                    | .error e => (.error e, db, locks)
                    | .ok _ =>
                      match checkAccountLedgerConsistency db5 usdCb' with
                      | .error e => (.error e, db, locks)
                      | .ok _ =>
                        match checkAccountLedgerConsistency db5 eurCb' with
                        | .error e => (.error e, db, locks)
                        | .ok _ => (.ok (), db5, locks)

/-! ## Reconciliation (service/reconcile.go) -/

structure LedgerCurrencyStatus where
  currency : Currency
  totalSum : ℚ
  isBalanced : Bool
deriving DecidableEq, Repr

structure AccountMismatch where
  accountID : AccountID
  currency : Currency
  accountBalance : ℚ
  ledgerBalance : ℚ
  difference : ℚ
deriving DecidableEq, Repr

structure ReconciliationReport where
  timestamp : ℕ
  isConsistent : Bool
  ledgerBalances : List LedgerCurrencyStatus
  accountMismatches : List AccountMismatch
  totalAccountsChecked : ℕ
deriving DecidableEq, Repr

/-- `LedgerRepository.GetTotalBalanceByCurrency`: the per-currency sums. -/
def dbGetTotalBalanceByCurrency (db : Db) : List (Currency × ℚ) :=
  (ledgerCurrencies db).map (fun c => (c, ledgerSumCurrency db c))

/-- `LedgerRepository.GetAccountBalanceMismatches`: accounts whose stored
balance differs from their ledger sum. -/
def dbGetAccountBalanceMismatches (db : Db) :
    List (AccountID × ℚ × ℚ × Currency) :=
  (db.accounts.filter (fun a => ¬ (a.balance.amount = ledgerSumAccount db a.id))).map
    (fun a => (a.id, a.balance.amount, ledgerSumAccount db a.id, a.balance.currency))

/-- `Service.Reconcile`: the report starts consistent; each unbalanced
currency status and each account mismatch flips the flag, exactly as the
two loops in the Go body do. -/
def ServiceReconcile (db : Db) (now : ℕ) : ReconciliationReport :=
  let statuses := (dbGetTotalBalanceByCurrency db).map
    (fun p => LedgerCurrencyStatus.mk p.1 p.2 (p.2 == 0))
  let consistentAfterCurrencies :=
    statuses.foldl (fun flag s => if s.isBalanced then flag else false) true
  let mismatches := (dbGetAccountBalanceMismatches db).map
    (fun m => AccountMismatch.mk m.1 m.2.2.2 m.2.1 m.2.2.1 (m.2.1 - m.2.2.1))
  let consistentFinal :=
    mismatches.foldl (fun _ _ => false) consistentAfterCurrencies
  ⟨now, consistentFinal, statuses, mismatches, db.accounts.length⟩

/-! ## Helper lemmas -/

/-- A currency-matched debit with funds (or on a cashbook) succeeds and
subtracts the amount. -/
theorem Account.debit_ok (a : Account) (m : Money)
    (hcur : m.currency = a.balance.currency)
    (hfunds : a.IsCashbook = true ∨ m.amount ≤ a.balance.amount) :
    a.Debit m = .ok { a with balance := ⟨a.balance.amount - m.amount, a.balance.currency⟩ } := by
  have hno : ¬ (a.IsCashbook = false ∧ a.balance.amount < m.amount) := by
    rcases hfunds with h | h
    · simp [h]
    · rintro ⟨-, hlt⟩
      exact absurd h (not_le.mpr hlt)
  rw [Account.Debit, if_neg hno]
  simp [Money.Sub, Money.CheckIsNotEqualCurrencies, hcur]

/-- A valid currency is USD or EUR. -/
theorem Currency.isValid_cases (c : Currency) (h : c.IsValid = true) :
    c = CurrencyUSD ∨ c = CurrencyEUR := by
  simpa [Currency.IsValid] using h

/-- A currency-matched credit succeeds and adds the amount. -/
theorem Account.credit_ok (a : Account) (m : Money)
    (hcur : m.currency = a.balance.currency) :
    a.Credit m = .ok { a with balance := ⟨a.balance.amount + m.amount, a.balance.currency⟩ } := by
  rw [Account.Credit]
  simp [Money.Add, Money.CheckIsNotEqualCurrencies, hcur]

/-- A transfer's ledger entry always builds: the two records carry the
same currency and opposite amounts, so the zero check passes. -/
theorem getLedgerEntry_ok (td : TransferDetails) (l1 l2 : ℕ) :
    td.GetLedgerEntry l1 l2 =
      .ok (⟨l1, td.TransactionID, td.Sender, td.money.ToNegative, td.time⟩,
           ⟨l2, td.TransactionID, td.recipient, td.money, td.time⟩) := by
  simp [TransferDetails.GetLedgerEntry, Money.Add, Money.CheckIsNotEqualCurrencies,
    Money.ToNegative, Money.IsZero]

/-- `Save` never touches the ledger table. -/
theorem dbSave_ledger (db : Db) (a : Account) : (dbSave db a).ledger = db.ledger := by
  rw [dbSave]
  split <;> rfl

/-- Currency sums split over appended ledger rows. -/
theorem sumAmountsCurrency_append (l1 l2 : List LedgerRecord) (c : Currency) :
    sumAmountsCurrency (l1 ++ l2) c = sumAmountsCurrency l1 c + sumAmountsCurrency l2 c := by
  simp [sumAmountsCurrency, List.filter_append]

/-- Account sums split over appended ledger rows. -/
theorem sumAmountsAccount_append (l1 l2 : List LedgerRecord) (accountID : AccountID) :
    sumAmountsAccount (l1 ++ l2) accountID =
      sumAmountsAccount l1 accountID + sumAmountsAccount l2 accountID := by
  simp [sumAmountsAccount, List.filter_append]

/-- The I1 check passes when every currency sums to zero. -/
theorem checkLedgerBalanceByCurrency_ok (db : Db)
    (h : ∀ c, ledgerSumCurrency db c = 0) :
    checkLedgerBalanceByCurrency db = .ok () := by
  rw [checkLedgerBalanceByCurrency]
  have hnone : (ledgerCurrencies db).find?
      (fun c => ¬ (ledgerSumCurrency db c = 0)) = none := by
    rw [List.find?_eq_none]
    intro c _
    simp [h c]
  rw [hnone]

/-! ## Claims -/

/-- C2: for money of the account's currency, `Account.Debit` fails with
`InsufficientFunds` exactly when the account is not a cashbook and its
balance is below the amount; otherwise it succeeds and subtracts the
amount, so a debit of the full balance leaves zero and a cashbook can go
negative. -/
theorem C2_account_debit_spec (a : Account) (m : Money)
    (hcur : m.currency = a.balance.currency) :
    (a.Debit m = .error (.insufficientFunds a.id m.amount a.balance.amount) ↔
      a.IsCashbook = false ∧ a.balance.amount < m.amount) ∧
    (a.IsCashbook = true ∨ m.amount ≤ a.balance.amount →
      a.Debit m = .ok { a with balance := ⟨a.balance.amount - m.amount, a.balance.currency⟩ }) := by
  have hsub : a.balance.Sub m = .ok ⟨a.balance.amount - m.amount, a.balance.currency⟩ := by
    simp [Money.Sub, Money.CheckIsNotEqualCurrencies, hcur]
  constructor
  · constructor
    · intro h
      by_contra hc
      rw [Account.Debit] at h
      rw [if_neg hc, hsub] at h
      exact Except.noConfusion h
    · intro h
      rw [Account.Debit, if_pos h]
  · intro h
    have hc : ¬ (a.IsCashbook = false ∧ a.balance.amount < m.amount) := by
      rcases h with h | h
      · simp [h]
      · rintro ⟨-, hlt⟩
        exact absurd h (not_le.mpr hlt)
    rw [Account.Debit, if_neg hc, hsub]

/-- C2 witness: a debit of the full balance leaves zero; an insufficient
non-cashbook debit fails; a cashbook debit may go below zero. -/
theorem C2_account_debit_spec_witness :
    (Account.Debit ⟨7, 2, ⟨5, CurrencyUSD⟩⟩ ⟨5, CurrencyUSD⟩ =
      .ok ⟨7, 2, ⟨0, CurrencyUSD⟩⟩) ∧
    (Account.Debit ⟨7, 2, ⟨5, CurrencyUSD⟩⟩ ⟨6, CurrencyUSD⟩ =
      .error (.insufficientFunds 7 6 5)) ∧
    (Account.Debit ⟨CashbookUSD, CashbookUserID, ⟨0, CurrencyUSD⟩⟩ ⟨3, CurrencyUSD⟩ =
      .ok ⟨CashbookUSD, CashbookUserID, ⟨-3, CurrencyUSD⟩⟩) := by
  refine ⟨?_, ?_, ?_⟩
  · have h := (C2_account_debit_spec ⟨7, 2, ⟨5, CurrencyUSD⟩⟩ ⟨5, CurrencyUSD⟩ rfl).2
      (by right; norm_num)
    simpa using h
  · exact (C2_account_debit_spec ⟨7, 2, ⟨5, CurrencyUSD⟩⟩ ⟨6, CurrencyUSD⟩ rfl).1.mpr
      (by constructor <;> [decide; norm_num])
  · have h := (C2_account_debit_spec ⟨CashbookUSD, CashbookUserID, ⟨0, CurrencyUSD⟩⟩
      ⟨3, CurrencyUSD⟩ rfl).2 (by left; decide)
    simpa using h

/-- C10: the insufficient-funds comparison in `Account.Debit` is on raw
decimal amounts and precedes any currency check: with a currency
mismatch, a non-cashbook account with balance amount below the requested
amount gets `InsufficientFunds`, and `CurrencyMismatch` surfaces only
when the account is a cashbook or its balance amount covers the request. -/
theorem C10_debit_raw_amount_guard_first (a : Account) (m : Money)
    (hcur : m.currency ≠ a.balance.currency) :
    (a.IsCashbook = false → a.balance.amount < m.amount →
      a.Debit m = .error (.insufficientFunds a.id m.amount a.balance.amount)) ∧
    (a.IsCashbook = true ∨ m.amount ≤ a.balance.amount →
      a.Debit m = .error (.currencyMismatch a.balance.currency m.currency)) := by
  have hsub : a.balance.Sub m = .error (.currencyMismatch a.balance.currency m.currency) := by
    simp [Money.Sub, Money.CheckIsNotEqualCurrencies, Ne.symm hcur]
  constructor
  · intro hcb hlt
    rw [Account.Debit, if_pos ⟨hcb, hlt⟩]
  · intro h
    have hc : ¬ (a.IsCashbook = false ∧ a.balance.amount < m.amount) := by
      rcases h with h | h
      · simp [h]
      · rintro ⟨-, hlt⟩
        exact absurd h (not_le.mpr hlt)
    rw [Account.Debit, if_neg hc, hsub]

/-- C10 witness: a USD-denominated debit against an EUR balance returns
`InsufficientFunds` when the raw amount is short, and `CurrencyMismatch`
when it is covered. -/
theorem C10_debit_raw_amount_guard_first_witness :
    (Account.Debit ⟨4, 2, ⟨10, CurrencyEUR⟩⟩ ⟨11, CurrencyUSD⟩ =
      .error (.insufficientFunds 4 11 10)) ∧
    (Account.Debit ⟨4, 2, ⟨10, CurrencyEUR⟩⟩ ⟨9, CurrencyUSD⟩ =
      .error (.currencyMismatch CurrencyEUR CurrencyUSD)) := by
  constructor
  · exact (C10_debit_raw_amount_guard_first ⟨4, 2, ⟨10, CurrencyEUR⟩⟩ ⟨11, CurrencyUSD⟩
      (by decide)).1 (by decide) (by norm_num)
  · exact (C10_debit_raw_amount_guard_first ⟨4, 2, ⟨10, CurrencyEUR⟩⟩ ⟨9, CurrencyUSD⟩
      (by decide)).2 (by right; norm_num)

/-- C3: `ExchangeRate.Convert` fails with `CurrencyMismatch` exactly when
the input currency differs from the rate's source currency; otherwise it
returns money in the target currency whose amount is the product rounded
half away from zero to 2 decimal places. -/
theorem C3_convert_spec (r : ExchangeRate) (x : Money)
    (hvalid : r.dst.IsValid = true) :
    (x.currency ≠ r.src → r.Convert x = .error (.currencyMismatch r.src x.currency)) ∧
    (x.currency = r.src → r.Convert x = .ok ⟨roundD 2 (x.amount * r.rate), r.dst⟩) := by
  constructor
  · intro h
    rw [ExchangeRate.Convert, if_pos h]
  · intro h
    rw [ExchangeRate.Convert, if_neg (by simp [h]), NewMoney, if_neg (by simp [hvalid])]

/-- C3 witness: converting 100 USD at rate 0.92 yields 92 EUR, and an
EUR input against a USD→EUR rate is a currency mismatch. -/
theorem C3_convert_spec_witness :
    (ExchangeRate.Convert ⟨CurrencyUSD, CurrencyEUR, 92/100⟩ ⟨100, CurrencyUSD⟩ =
      .ok ⟨92, CurrencyEUR⟩) ∧
    (ExchangeRate.Convert ⟨CurrencyUSD, CurrencyEUR, 92/100⟩ ⟨100, CurrencyEUR⟩ =
      .error (.currencyMismatch CurrencyUSD CurrencyEUR)) := by
  constructor
  · have h := (C3_convert_spec ⟨CurrencyUSD, CurrencyEUR, 92/100⟩ ⟨100, CurrencyUSD⟩
      (by decide)).2 rfl
    rw [h]
    norm_num [roundD, roundTiesAway]
  · exact (C3_convert_spec ⟨CurrencyUSD, CurrencyEUR, 92/100⟩ ⟨100, CurrencyEUR⟩
      (by decide)).1 (by decide)

/-- C1: the ledger-entry builders always succeed and their internal
not-zero branches are unreachable: a transfer's entry is exactly
`(sender, −money)`, `(recipient, +money)` and sums to zero, and an
exchange's two entries are `(source, −sourceAmount)` +
`(source-cashbook, +sourceAmount)` and `(target-cashbook, −targetAmount)`
+ `(target, +targetAmount)`, each summing to zero in its own currency. -/
theorem C1_ledger_entries_balanced :
    (∀ (td : TransferDetails) (l1 l2 : ℕ),
      td.GetLedgerEntry l1 l2 =
        .ok (⟨l1, td.TransactionID, td.Sender, td.money.ToNegative, td.time⟩,
             ⟨l2, td.TransactionID, td.recipient, td.money, td.time⟩) ∧
      td.money.ToNegative.amount + td.money.amount = 0) ∧
    (∀ (ed : ExchangeDetails) (l1 l2 l3 l4 : ℕ),
      ed.GetLedgerEntries l1 l2 l3 l4 =
        .ok ⟨(⟨l1, ed.TransactionID, ed.sourceAccount, ed.sourceAmount.ToNegative, ed.time⟩,
              ⟨l2, ed.TransactionID, GetCashbookAccount ed.sourceAmount.currency,
                ed.sourceAmount, ed.time⟩),
             (⟨l3, ed.TransactionID, GetCashbookAccount ed.targetAmount.currency,
                ed.targetAmount.ToNegative, ed.time⟩,
              ⟨l4, ed.TransactionID, ed.targetAccount, ed.targetAmount, ed.time⟩)⟩ ∧
      ed.sourceAmount.ToNegative.amount + ed.sourceAmount.amount = 0 ∧
      ed.targetAmount.ToNegative.amount + ed.targetAmount.amount = 0) := by
  constructor
  · intro td l1 l2
    constructor
    · simp [TransferDetails.GetLedgerEntry, Money.Add, Money.CheckIsNotEqualCurrencies,
        Money.ToNegative, Money.IsZero]
    · simp [Money.ToNegative]
  · intro ed l1 l2 l3 l4
    refine ⟨?_, by simp [Money.ToNegative], by simp [Money.ToNegative]⟩
    simp [ExchangeDetails.GetLedgerEntries, ExchangeDetails.buildSourceCurrencyEntry,
      ExchangeDetails.buildTargetCurrencyEntry, validateBalancedEntry,
      Money.Add, Money.CheckIsNotEqualCurrencies, Money.ToNegative, Money.IsZero]

/-- C4: the fixed provider configured with a usable rate `k` for USD→EUR
is a total case analysis: same-currency requests fail with
`SameCurrencyExchangeRate`, USD→EUR returns `k`, EUR→USD returns `1/k`
rounded half away from zero to 6 decimal places (after the 16-place
division of `decimal.Div`), every other pair fails with
`ExchangeRateNotFound`; and at `k = 0.92` converting 92 EUR to USD
yields exactly 100. -/
theorem C4_fixed_provider_spec (k : ℚ) (hk : 0 < k)
    (hinv : 0 < roundD 6 (divD 1 k)) :
    (∀ c : Currency,
      FixedExchangeRateProviderGetRate k c c = .error (.sameCurrencyExchangeRate c)) ∧
    (FixedExchangeRateProviderGetRate k CurrencyUSD CurrencyEUR =
      .ok ⟨CurrencyUSD, CurrencyEUR, k⟩) ∧
    (FixedExchangeRateProviderGetRate k CurrencyEUR CurrencyUSD =
      .ok ⟨CurrencyEUR, CurrencyUSD, roundD 6 (divD 1 k)⟩) ∧
    (∀ src dst : Currency, src ≠ dst →
      ¬ (src = CurrencyUSD ∧ dst = CurrencyEUR) →
      ¬ (src = CurrencyEUR ∧ dst = CurrencyUSD) →
      FixedExchangeRateProviderGetRate k src dst = .error (.exchangeRateNotFound src dst)) ∧
    (k = 92/100 →
      ∃ r, FixedExchangeRateProviderGetRate k CurrencyEUR CurrencyUSD = .ok r ∧
        r.Convert ⟨92, CurrencyEUR⟩ = .ok ⟨100, CurrencyUSD⟩) := by
  have husd : Currency.IsValid CurrencyUSD = true := by decide
  have heur : Currency.IsValid CurrencyEUR = true := by decide
  have hne : CurrencyUSD ≠ CurrencyEUR := by decide
  refine ⟨?_, ?_, ?_, ?_, ?_⟩
  · intro c
    simp [FixedExchangeRateProviderGetRate]
  · simp [FixedExchangeRateProviderGetRate, NewExchangeRate, hne, husd, heur,
      hk.not_lt, hk.ne']
  · simp [FixedExchangeRateProviderGetRate, NewExchangeRate, Ne.symm hne, husd, heur,
      hinv.not_lt, hinv.ne']
  · intro src dst h1 h2 h3
    simp [FixedExchangeRateProviderGetRate, h1, h2, h3]
  · intro hk92
    refine ⟨⟨CurrencyEUR, CurrencyUSD, roundD 6 (divD 1 k)⟩, ?_, ?_⟩
    · simp [FixedExchangeRateProviderGetRate, NewExchangeRate, Ne.symm hne, husd, heur,
        hinv.not_lt, hinv.ne']
    · rw [ExchangeRate.Convert, if_neg (by simp), NewMoney, if_neg (by simp [husd])]
      subst hk92
      norm_num [roundD, roundTiesAway, divD]

/-- C4 witness: the provider at the seeded rate 0.92: the inverse rate
is 1.086957 and 92 EUR convert to exactly 100 USD. -/
theorem C4_fixed_provider_spec_witness :
    FixedExchangeRateProviderGetRate (92/100) CurrencyEUR CurrencyUSD =
      .ok ⟨CurrencyEUR, CurrencyUSD, 1086957/1000000⟩ ∧
    (ExchangeRate.Convert ⟨CurrencyEUR, CurrencyUSD, 1086957/1000000⟩
      ⟨92, CurrencyEUR⟩ = .ok ⟨100, CurrencyUSD⟩) := by
  have hinv : (0 : ℚ) < roundD 6 (divD 1 (92/100)) := by
    norm_num [roundD, roundTiesAway, divD]
  have hval : roundD 6 (divD 1 (92/100 : ℚ)) = 1086957/1000000 := by
    norm_num [roundD, roundTiesAway, divD]
  have h := C4_fixed_provider_spec (92/100) (by norm_num) hinv
  obtain ⟨r, hr, hconv⟩ := h.2.2.2.2 rfl
  have hfixed := h.2.2.1
  rw [hval] at hfixed
  have hreq : r = ⟨CurrencyEUR, CurrencyUSD, 1086957/1000000⟩ := by
    have := hfixed.symm.trans hr
    exact (Except.ok.inj this).symm
  rw [hreq] at hconv
  exact ⟨hfixed, hconv⟩

/-- C8: the transfer domain service's only explicit amount validation is
the negativity check: a zero-amount transfer between matching-currency
accounts with a non-negative (or cashbook) sender passes the domain
service with both balances unchanged and the descriptor returned, and is
rejected only by the database CHECK `transfer_positive_amount` at
persistence. -/
theorem C8_zero_transfer_passes_domain (sup : IdSupply) (src dst : Account)
    (m : Money) (now : ℕ) :
    (m.amount < 0 →
      TransferServiceExecute sup src dst m now = .error (.negativeTransfer m)) ∧
    (m.amount = 0 → m.currency = src.balance.currency →
      m.currency = dst.balance.currency →
      (src.IsCashbook = true ∨ 0 ≤ src.balance.amount) →
      TransferServiceExecute sup src dst m now =
        .ok (NewTransferDetails sup.detailsId sup.txId src.id dst.id m now, src, dst)) ∧
    (∀ (db : Db) (l1 l2 : ℕ) (t : TransferDetails), ¬ (0 < t.money.amount) →
      transfersInsert l1 l2 db t = .error .transferPositiveAmountCheck) := by
  refine ⟨?_, ?_, ?_⟩
  · intro hneg
    rw [TransferServiceExecute, if_pos (by simp [Money.IsNegative, hneg])]
  · intro h0 hcs hcd hfunds
    have hdeb : src.Debit m = .ok src := by
      have hno : ¬ (src.IsCashbook = false ∧ src.balance.amount < m.amount) := by
        rcases hfunds with h | h
        · simp [h]
        · rintro ⟨-, hlt⟩
          rw [h0] at hlt
          exact absurd h (not_le.mpr hlt)
      rw [Account.Debit, if_neg hno]
      simp [Money.Sub, Money.CheckIsNotEqualCurrencies, hcs, h0]
    have hcred : dst.Credit m = .ok dst := by
      rw [Account.Credit]
      simp [Money.Add, Money.CheckIsNotEqualCurrencies, hcd, h0]
    rw [TransferServiceExecute, if_neg (by simp [Money.IsNegative, h0]), hdeb, hcred]
  · intro db l1 l2 t ht
    rw [transfersInsert, if_pos ht]

/-- C8 witness: a zero USD transfer between two funded USD accounts
passes the domain service unchanged and the repository insert rejects
its details row. -/
theorem C8_zero_transfer_passes_domain_witness :
    (TransferServiceExecute ⟨50, 51, 52, 53, 54, 55⟩
        ⟨1, 2, ⟨10, CurrencyUSD⟩⟩ ⟨3, 4, ⟨20, CurrencyUSD⟩⟩ ⟨0, CurrencyUSD⟩ 9 =
      .ok (NewTransferDetails 50 51 1 3 ⟨0, CurrencyUSD⟩ 9,
        ⟨1, 2, ⟨10, CurrencyUSD⟩⟩, ⟨3, 4, ⟨20, CurrencyUSD⟩⟩)) ∧
    (transfersInsert 54 55 ⟨[], [], [], [], []⟩
        (NewTransferDetails 50 51 1 3 ⟨0, CurrencyUSD⟩ 9) =
      .error .transferPositiveAmountCheck) := by
  constructor
  · exact (C8_zero_transfer_passes_domain ⟨50, 51, 52, 53, 54, 55⟩
      ⟨1, 2, ⟨10, CurrencyUSD⟩⟩ ⟨3, 4, ⟨20, CurrencyUSD⟩⟩ ⟨0, CurrencyUSD⟩ 9).2.1
      rfl rfl rfl (by right; norm_num)
  · exact (C8_zero_transfer_passes_domain ⟨50, 51, 52, 53, 54, 55⟩
      ⟨1, 2, ⟨10, CurrencyUSD⟩⟩ ⟨3, 4, ⟨20, CurrencyUSD⟩⟩ ⟨0, CurrencyUSD⟩ 9).2.2
      ⟨[], [], [], [], []⟩ 54 55 _ (by norm_num [NewTransferDetails])

/-- C5: the exchange domain service rejects a negative source amount
with `NegativeExchange`, a zero amount with its explicit error, equal
source/target account currencies with `SameCurrencyExchange`, and rate
endpoints that disagree with the source amount or target account
currency with `CurrencyMismatch`, in that order; on success it debits
the source, credits the target with `rate.Convert(sourceAmount)`,
credits the source-currency cashbook and debits the target-currency
cashbook (sequencing and error precedence are those of
`ExchangeServiceExecute`). -/
theorem C5_exchange_service_spec (sup : IdSupply)
    (source target cbU cbE : Account) (amt : Money) (rate : ExchangeRate) (now : ℕ) :
    (amt.amount < 0 →
      ExchangeServiceExecute sup source target cbU cbE amt rate now =
        .error (.negativeExchange amt)) ∧
    (amt.amount = 0 →
      ExchangeServiceExecute sup source target cbU cbE amt rate now =
        .error .zeroExchange) ∧
    (0 < amt.amount → source.balance.currency = target.balance.currency →
      ExchangeServiceExecute sup source target cbU cbE amt rate now =
        .error (.sameCurrencyExchange source.balance.currency)) ∧
    (0 < amt.amount → source.balance.currency ≠ target.balance.currency →
      rate.src ≠ amt.currency →
      ExchangeServiceExecute sup source target cbU cbE amt rate now =
        .error (.currencyMismatch rate.src amt.currency)) ∧
    (0 < amt.amount → source.balance.currency ≠ target.balance.currency →
      rate.src = amt.currency → rate.dst ≠ target.balance.currency →
      ExchangeServiceExecute sup source target cbU cbE amt rate now =
        .error (.currencyMismatch rate.dst target.balance.currency)) ∧
    (∀ tgtAmt : Money, tgtAmt = ⟨roundD 2 (amt.amount * rate.rate), rate.dst⟩ →
      0 < amt.amount → source.balance.currency ≠ target.balance.currency →
      rate.src = amt.currency → rate.dst = target.balance.currency →
      amt.currency = source.balance.currency → rate.dst.IsValid = true →
      (source.IsCashbook = true ∨ amt.amount ≤ source.balance.amount) →
      cbU.userID = CashbookUserID → cbU.balance.currency = CurrencyUSD →
      cbE.userID = CashbookUserID → cbE.balance.currency = CurrencyEUR →
      amt.currency.IsValid = true →
      ((amt.currency = CurrencyUSD →
        ExchangeServiceExecute sup source target cbU cbE amt rate now =
          .ok (⟨sup.detailsId, ⟨sup.txId, .exchange, source.id, now⟩,
                source.id, target.id, amt, tgtAmt, now⟩,
              { source with balance :=
                  ⟨source.balance.amount - amt.amount, source.balance.currency⟩ },
              { target with balance :=
                  ⟨target.balance.amount + tgtAmt.amount, target.balance.currency⟩ },
              { cbU with balance :=
                  ⟨cbU.balance.amount + amt.amount, cbU.balance.currency⟩ },
              { cbE with balance :=
                  ⟨cbE.balance.amount - tgtAmt.amount, cbE.balance.currency⟩ })) ∧
       (amt.currency = CurrencyEUR →
        ExchangeServiceExecute sup source target cbU cbE amt rate now =
          .ok (⟨sup.detailsId, ⟨sup.txId, .exchange, source.id, now⟩,
                source.id, target.id, amt, tgtAmt, now⟩,
              { source with balance :=
                  ⟨source.balance.amount - amt.amount, source.balance.currency⟩ },
              { target with balance :=
                  ⟨target.balance.amount + tgtAmt.amount, target.balance.currency⟩ },
              { cbU with balance :=
                  ⟨cbU.balance.amount - tgtAmt.amount, cbU.balance.currency⟩ },
              { cbE with balance :=
                  ⟨cbE.balance.amount + amt.amount, cbE.balance.currency⟩ })))) := by
  refine ⟨?_, ?_, ?_, ?_, ?_, ?_⟩
  · intro hneg
    rw [ExchangeServiceExecute, if_pos (by simp [Money.IsNegative, hneg])]
  · intro h0
    rw [ExchangeServiceExecute, if_neg (by simp [Money.IsNegative, h0]),
      if_pos (by simp [Money.IsZero, h0])]
  · intro hpos hsame
    rw [ExchangeServiceExecute, if_neg (by simp [Money.IsNegative, hpos.not_lt]),
      if_neg (by simp [Money.IsZero, hpos.ne']), if_pos hsame]
  · intro hpos hdiff hmis
    rw [ExchangeServiceExecute, if_neg (by simp [Money.IsNegative, hpos.not_lt]),
      if_neg (by simp [Money.IsZero, hpos.ne']), if_neg hdiff, if_pos hmis]
  · intro hpos hdiff hsrc hmis
    rw [ExchangeServiceExecute, if_neg (by simp [Money.IsNegative, hpos.not_lt]),
      if_neg (by simp [Money.IsZero, hpos.ne']), if_neg hdiff,
      if_neg (by simp [hsrc]), if_pos hmis]
  · intro tgtAmt htgt hpos hdiff hsrc hdst halign hvalid hfunds hcbUu hcbUc hcbEu hcbEc hamtvalid
    have hconv : CalculateExchangeAmount amt rate = .ok tgtAmt := by
      rw [CalculateExchangeAmount, ExchangeRate.Convert, if_neg (by simp [hsrc]),
        NewMoney, if_neg (by simp [hvalid]), htgt]
    have hdeb : source.Debit amt = .ok { source with balance :=
        ⟨source.balance.amount - amt.amount, source.balance.currency⟩ } :=
      Account.debit_ok source amt halign hfunds
    have hcredT : target.Credit tgtAmt = .ok { target with balance :=
        ⟨target.balance.amount + tgtAmt.amount, target.balance.currency⟩ } :=
      Account.credit_ok target tgtAmt (by rw [htgt]; exact hdst)
    have htgtcur : tgtAmt.currency = target.balance.currency := by
      rw [htgt]; exact hdst
    have hcurne : amt.currency ≠ tgtAmt.currency := by
      rw [htgtcur, halign]; exact hdiff
    have hdetails : NewExchangeDetails sup.detailsId sup.txId source.id target.id
        amt tgtAmt now = .ok ⟨sup.detailsId, ⟨sup.txId, .exchange, source.id, now⟩,
          source.id, target.id, amt, tgtAmt, now⟩ := by
      rw [NewExchangeDetails, if_neg hcurne]
    constructor
    · intro hUSD
      have htgtEUR : target.balance.currency = CurrencyEUR := by
        have hne' : target.balance.currency ≠ CurrencyUSD := by
          rw [← halign, hUSD] at hdiff
          exact (Ne.symm hdiff)
        have hv : target.balance.currency.IsValid = true := by rw [← hdst]; exact hvalid
        rcases Currency.isValid_cases _ hv with h | h
        · exact absurd h hne'
        · exact h
      have hcb1 : creditCashbookFor (cbU, cbE) amt.currency amt =
          .ok ({ cbU with balance := ⟨cbU.balance.amount + amt.amount, cbU.balance.currency⟩ }, cbE) := by
        rw [creditCashbookFor, if_pos hUSD,
          Account.credit_ok cbU amt (by rw [hUSD, hcbUc])]
      have hcb2 : debitCashbookFor
          ({ cbU with balance := ⟨cbU.balance.amount + amt.amount, cbU.balance.currency⟩ }, cbE)
          tgtAmt.currency tgtAmt =
          .ok ({ cbU with balance := ⟨cbU.balance.amount + amt.amount, cbU.balance.currency⟩ },
               { cbE with balance := ⟨cbE.balance.amount - tgtAmt.amount, cbE.balance.currency⟩ }) := by
        rw [debitCashbookFor, if_neg (by rw [htgtcur, htgtEUR]; decide),
          Account.debit_ok cbE tgtAmt (by rw [htgtcur, htgtEUR, hcbEc])
            (by left; simp [Account.IsCashbook, hcbEu])]
      rw [ExchangeServiceExecute, if_neg (by simp [Money.IsNegative, hpos.not_lt]),
        if_neg (by simp [Money.IsZero, hpos.ne']), if_neg hdiff,
        if_neg (by simp [hsrc]), if_neg (by simp [hdst])]
      simp only [hconv, hdeb, hcredT, hcb1, hcb2, hdetails]
    · intro hEUR
      have htgtUSD : target.balance.currency = CurrencyUSD := by
        have hne' : target.balance.currency ≠ CurrencyEUR := by
          rw [← halign, hEUR] at hdiff
          exact (Ne.symm hdiff)
        have hv : target.balance.currency.IsValid = true := by rw [← hdst]; exact hvalid
        rcases Currency.isValid_cases _ hv with h | h
        · exact h
        · exact absurd h hne'
      have hcb1 : creditCashbookFor (cbU, cbE) amt.currency amt =
          .ok (cbU, { cbE with balance := ⟨cbE.balance.amount + amt.amount, cbE.balance.currency⟩ }) := by
        rw [creditCashbookFor, if_neg (by rw [hEUR]; decide),
          Account.credit_ok cbE amt (by rw [hEUR, hcbEc])]
      have hcb2 : debitCashbookFor
          (cbU, { cbE with balance := ⟨cbE.balance.amount + amt.amount, cbE.balance.currency⟩ })
          tgtAmt.currency tgtAmt =
          .ok ({ cbU with balance := ⟨cbU.balance.amount - tgtAmt.amount, cbU.balance.currency⟩ },
               { cbE with balance := ⟨cbE.balance.amount + amt.amount, cbE.balance.currency⟩ }) := by
        rw [debitCashbookFor, if_pos (by rw [htgtcur, htgtUSD]),
          Account.debit_ok cbU tgtAmt (by rw [htgtcur, htgtUSD, hcbUc])
            (by left; simp [Account.IsCashbook, hcbUu])]
      rw [ExchangeServiceExecute, if_neg (by simp [Money.IsNegative, hpos.not_lt]),
        if_neg (by simp [Money.IsZero, hpos.ne']), if_neg hdiff,
        if_neg (by simp [hsrc]), if_neg (by simp [hdst])]
      simp only [hconv, hdeb, hcredT, hcb1, hcb2, hdetails]

/-- C5 witness: exchanging 100 USD at rate 0.92 moves 100 out of the
source, 92 into the target, 100 into the USD cashbook and 92 out of the
EUR cashbook (which goes negative). -/
theorem C5_exchange_service_spec_witness :
    ExchangeServiceExecute ⟨60, 61, 62, 63, 64, 65⟩
      ⟨1, 2, ⟨1000, CurrencyUSD⟩⟩ ⟨2, 2, ⟨500, CurrencyEUR⟩⟩
      ⟨CashbookUSD, CashbookUserID, ⟨0, CurrencyUSD⟩⟩
      ⟨CashbookEUR, CashbookUserID, ⟨0, CurrencyEUR⟩⟩
      ⟨100, CurrencyUSD⟩ ⟨CurrencyUSD, CurrencyEUR, 92/100⟩ 9 =
    .ok (⟨60, ⟨61, .exchange, 1, 9⟩, 1, 2, ⟨100, CurrencyUSD⟩, ⟨92, CurrencyEUR⟩, 9⟩,
         ⟨1, 2, ⟨900, CurrencyUSD⟩⟩, ⟨2, 2, ⟨592, CurrencyEUR⟩⟩,
         ⟨CashbookUSD, CashbookUserID, ⟨100, CurrencyUSD⟩⟩,
         ⟨CashbookEUR, CashbookUserID, ⟨-92, CurrencyEUR⟩⟩) := by
  have h := (C5_exchange_service_spec ⟨60, 61, 62, 63, 64, 65⟩
      ⟨1, 2, ⟨1000, CurrencyUSD⟩⟩ ⟨2, 2, ⟨500, CurrencyEUR⟩⟩
      ⟨CashbookUSD, CashbookUserID, ⟨0, CurrencyUSD⟩⟩
      ⟨CashbookEUR, CashbookUserID, ⟨0, CurrencyEUR⟩⟩
      ⟨100, CurrencyUSD⟩ ⟨CurrencyUSD, CurrencyEUR, 92/100⟩ 9).2.2.2.2.2
    ⟨roundD 2 (100 * (92/100)), CurrencyEUR⟩ rfl (by norm_num) (by decide)
    rfl rfl rfl (by decide) (by right; norm_num) rfl rfl rfl rfl (by decide)
  have h2 := h.1 rfl
  rw [h2]
  norm_num [roundD, roundTiesAway]

/-- The first reconcile loop computes the conjunction of the statuses'
`isBalanced` flags. -/
theorem foldl_balanced_flag (l : List LedgerCurrencyStatus) (b : Bool) :
    l.foldl (fun flag s => if s.isBalanced then flag else false) b =
      (b && l.all (fun s => s.isBalanced)) := by
  induction l generalizing b with
  | nil => simp
  | cons x xs ih =>
    rw [List.foldl_cons, ih]
    cases hx : x.isBalanced <;> simp [hx, Bool.and_assoc]

/-- The second reconcile loop zeroes the flag on any mismatch. -/
theorem foldl_mismatch_flag (l : List AccountMismatch) (b : Bool) :
    l.foldl (fun _ _ => false) b = (b && l.isEmpty) := by
  induction l generalizing b with
  | nil => simp
  | cons x xs ih => simp [List.foldl_cons, ih]

/-- The report's per-currency statuses, in closed form. -/
theorem reconcile_statuses (db : Db) (now : ℕ) :
    (ServiceReconcile db now).ledgerBalances =
      (ledgerCurrencies db).map
        (fun c => ⟨c, ledgerSumCurrency db c, ledgerSumCurrency db c == 0⟩) := by
  rw [ServiceReconcile, dbGetTotalBalanceByCurrency]
  simp [List.map_map, Function.comp]

/-- The report's mismatch list, in closed form. -/
theorem reconcile_mismatches (db : Db) (now : ℕ) :
    (ServiceReconcile db now).accountMismatches =
      (db.accounts.filter (fun a => ¬ (a.balance.amount = ledgerSumAccount db a.id))).map
        (fun a => ⟨a.id, a.balance.currency, a.balance.amount, ledgerSumAccount db a.id,
          a.balance.amount - ledgerSumAccount db a.id⟩) := by
  rw [ServiceReconcile, dbGetAccountBalanceMismatches]
  simp [List.map_map, Function.comp]

/-- C9: the reconcile report's `isConsistent` flag is exactly "every
per-currency status is balanced and the mismatch list is empty"
(equivalently, every per-currency ledger total is zero and no account
disagrees with its ledger sum); each status's `isBalanced` is `sum = 0`,
each mismatch's `difference` is `accountBalance − ledgerBalance`, and
`totalAccountsChecked` counts all accounts. -/
theorem C9_reconcile_report_spec (db : Db) (now : ℕ) :
    ((ServiceReconcile db now).isConsistent =
      ((ServiceReconcile db now).ledgerBalances.all (fun s => s.isBalanced) &&
       (ServiceReconcile db now).accountMismatches.isEmpty)) ∧
    ((ServiceReconcile db now).isConsistent = true ↔
      (∀ c ∈ ledgerCurrencies db, ledgerSumCurrency db c = 0) ∧
      dbGetAccountBalanceMismatches db = []) ∧
    (∀ s ∈ (ServiceReconcile db now).ledgerBalances, s.isBalanced = (s.totalSum == 0)) ∧
    (∀ m ∈ (ServiceReconcile db now).accountMismatches,
      m.difference = m.accountBalance - m.ledgerBalance) ∧
    ((ServiceReconcile db now).totalAccountsChecked = db.accounts.length) := by
  have h1 : (ServiceReconcile db now).isConsistent =
      ((ServiceReconcile db now).ledgerBalances.all (fun s => s.isBalanced) &&
       (ServiceReconcile db now).accountMismatches.isEmpty) := by
    rw [ServiceReconcile]
    simp only [foldl_mismatch_flag, foldl_balanced_flag, Bool.true_and]
  refine ⟨h1, ?_, ?_, ?_, rfl⟩
  · rw [h1, reconcile_statuses, reconcile_mismatches, Bool.and_eq_true]
    simp only [List.all_map, List.all_eq_true, Function.comp, beq_iff_eq,
      List.isEmpty_eq_true, List.map_eq_nil_iff, dbGetAccountBalanceMismatches]
    constructor
    · rintro ⟨h, hemp⟩
      refine ⟨?_, hemp⟩
      intro c hc
      have := h _ (List.mem_map_of_mem _ hc)
      simpa using this
    · rintro ⟨h, hemp⟩
      refine ⟨?_, hemp⟩
      intro x hx
      obtain ⟨c, hc, rfl⟩ := List.mem_map.mp hx
      simpa using h c hc
  · intro s hs
    rw [reconcile_statuses] at hs
    obtain ⟨c, hc, rfl⟩ := List.mem_map.mp hs
    rfl
  · intro m hm
    rw [reconcile_mismatches] at hm
    obtain ⟨a, ha, rfl⟩ := List.mem_map.mp hm
    rfl

/-- C9 witness: on a tiny state with one balanced USD ledger pair and a
consistent account the report is consistent, and its shape matches the
claim at a concrete input. -/
theorem C9_reconcile_report_spec_witness :
    ((ServiceReconcile ⟨[⟨1, 2, ⟨0, CurrencyUSD⟩⟩], [], [], [],
        [⟨5, 6, 1, ⟨3, CurrencyUSD⟩, 7⟩, ⟨8, 6, 1, ⟨-3, CurrencyUSD⟩, 7⟩]⟩ 9).isConsistent =
      true) ∧
    ((ServiceReconcile ⟨[⟨1, 2, ⟨0, CurrencyUSD⟩⟩], [], [], [],
        [⟨5, 6, 1, ⟨3, CurrencyUSD⟩, 7⟩, ⟨8, 6, 1, ⟨-3, CurrencyUSD⟩, 7⟩]⟩ 9).totalAccountsChecked = 1) := by
  have h := C9_reconcile_report_spec ⟨[⟨1, 2, ⟨0, CurrencyUSD⟩⟩], [], [], [],
    [⟨5, 6, 1, ⟨3, CurrencyUSD⟩, 7⟩, ⟨8, 6, 1, ⟨-3, CurrencyUSD⟩, 7⟩]⟩ 9
  refine ⟨h.2.1.mpr ⟨?_, ?_⟩, h.2.2.2.2⟩
  · intro c hc
    have hc' : c = CurrencyUSD := by
      simpa [ledgerCurrencies, List.dedup] using hc
    rw [hc']
    norm_num [ledgerSumCurrency, sumAmountsCurrency, List.filter]
  · norm_num [dbGetAccountBalanceMismatches, ledgerSumAccount, sumAmountsAccount, List.filter]

/-- C6 (amended): row locks are acquired in the command's own order, not
sorted by account ID: a transfer locks the source account first and the
destination second regardless of their relative IDs, and an exchange
locks source, target, USD cashbook, EUR cashbook in that fixed order
(so the USD cashbook comes after both user accounts and before the EUR
cashbook). -/
theorem C6_amended_lock_orders (sup : IdSupply) (db : Db) (k : ℚ)
    (cmdT : TransferCommand) (cmdE : ExchangeCommand) :
    ((∃ a, dbGetForUpdate db cmdT.src = .ok a) →
     (∃ b, dbGetForUpdate db cmdT.dst = .ok b) →
      (ServiceTransfer sup db cmdT).2.2 = [cmdT.src, cmdT.dst]) ∧
    ((∃ a, dbGetForUpdate db cmdE.sourceAccount = .ok a) →
     (∃ b, dbGetForUpdate db cmdE.targetAccount = .ok b) →
     (∃ u, dbGetForUpdate db CashbookUSD = .ok u) →
     (∃ v, dbGetForUpdate db CashbookEUR = .ok v) →
      (ServiceExchange k sup db cmdE).2.2 =
        [cmdE.sourceAccount, cmdE.targetAccount, CashbookUSD, CashbookEUR]) := by
  have hcbU : GetCashbookAccount CurrencyUSD = CashbookUSD := by
    simp [GetCashbookAccount]
  have hcbE : GetCashbookAccount CurrencyEUR = CashbookEUR := by
    simp [GetCashbookAccount, CurrencyEUR, CurrencyUSD]
  constructor
  · rintro ⟨a, ha⟩ ⟨b, hb⟩
    simp only [ServiceTransfer, ha, hb]
    repeat first | rfl | split
  · rintro ⟨a, ha⟩ ⟨b, hb⟩ ⟨u, hu⟩ ⟨v, hv⟩
    simp only [ServiceExchange, hcbU, hcbE, ha, hb, hu, hv]
    repeat first | rfl | split

/-- C6 witness: with all four rows present, a transfer from account 1 to
account 2 locks [1, 2] and an exchange from 1 to 2 locks
[1, 2, USD cashbook, EUR cashbook]. -/
theorem C6_amended_lock_orders_witness :
    (ServiceTransfer ⟨70, 71, 72, 73, 74, 75⟩
        ⟨[⟨1, 2, ⟨5, CurrencyUSD⟩⟩, ⟨2, 3, ⟨5, CurrencyUSD⟩⟩,
          ⟨CashbookUSD, CashbookUserID, ⟨0, CurrencyUSD⟩⟩,
          ⟨CashbookEUR, CashbookUserID, ⟨0, CurrencyEUR⟩⟩], [], [], [], []⟩
        ⟨1, 2, ⟨1, CurrencyUSD⟩, 9⟩).2.2 = [1, 2] ∧
    (ServiceExchange (92/100) ⟨70, 71, 72, 73, 74, 75⟩
        ⟨[⟨1, 2, ⟨5, CurrencyUSD⟩⟩, ⟨2, 3, ⟨5, CurrencyUSD⟩⟩,
          ⟨CashbookUSD, CashbookUserID, ⟨0, CurrencyUSD⟩⟩,
          ⟨CashbookEUR, CashbookUserID, ⟨0, CurrencyEUR⟩⟩], [], [], [], []⟩
        ⟨1, 2, ⟨1, CurrencyUSD⟩, 9⟩).2.2 = [1, 2, CashbookUSD, CashbookEUR] := by
  have h := C6_amended_lock_orders ⟨70, 71, 72, 73, 74, 75⟩
    ⟨[⟨1, 2, ⟨5, CurrencyUSD⟩⟩, ⟨2, 3, ⟨5, CurrencyUSD⟩⟩,
      ⟨CashbookUSD, CashbookUserID, ⟨0, CurrencyUSD⟩⟩,
      ⟨CashbookEUR, CashbookUserID, ⟨0, CurrencyEUR⟩⟩], [], [], [], []⟩
    (92/100) ⟨1, 2, ⟨1, CurrencyUSD⟩, 9⟩ ⟨1, 2, ⟨1, CurrencyUSD⟩, 9⟩
  exact ⟨h.1 ⟨_, rfl⟩ ⟨_, rfl⟩, h.2 ⟨_, rfl⟩ ⟨_, rfl⟩ ⟨_, rfl⟩ ⟨_, rfl⟩⟩

/-- C6 counterexample: a transfer whose destination ID (1) is smaller
than its source ID (2) locks the source row first — the trace is [2, 1],
not ascending — refuting the ascending-account-ID lock-order claim. -/
theorem C6_counterexample_transfer_lock_order :
    (ServiceTransfer ⟨70, 71, 72, 73, 74, 75⟩
        ⟨[⟨1, 2, ⟨5, CurrencyUSD⟩⟩, ⟨2, 3, ⟨5, CurrencyUSD⟩⟩], [], [], [], []⟩
        ⟨2, 1, ⟨1, CurrencyUSD⟩, 9⟩).2.2 = [2, 1] ∧
    ¬ List.Chain' (fun x y : AccountID => x ≤ y)
        ((ServiceTransfer ⟨70, 71, 72, 73, 74, 75⟩
            ⟨[⟨1, 2, ⟨5, CurrencyUSD⟩⟩, ⟨2, 3, ⟨5, CurrencyUSD⟩⟩], [], [], [], []⟩
            ⟨2, 1, ⟨1, CurrencyUSD⟩, 9⟩).2.2) := by
  have h1 : dbGetForUpdate
      ⟨[⟨1, 2, ⟨5, CurrencyUSD⟩⟩, ⟨2, 3, ⟨5, CurrencyUSD⟩⟩], [], [], [], []⟩ 2 =
      .ok ⟨2, 3, ⟨5, CurrencyUSD⟩⟩ := rfl
  have h2 : dbGetForUpdate
      ⟨[⟨1, 2, ⟨5, CurrencyUSD⟩⟩, ⟨2, 3, ⟨5, CurrencyUSD⟩⟩], [], [], [], []⟩ 1 =
      .ok ⟨1, 2, ⟨5, CurrencyUSD⟩⟩ := rfl
  have htrace : (ServiceTransfer ⟨70, 71, 72, 73, 74, 75⟩
      ⟨[⟨1, 2, ⟨5, CurrencyUSD⟩⟩, ⟨2, 3, ⟨5, CurrencyUSD⟩⟩], [], [], [], []⟩
      ⟨2, 1, ⟨1, CurrencyUSD⟩, 9⟩).2.2 = [2, 1] := by
    simp only [ServiceTransfer, h1, h2]
    repeat first | rfl | split
  refine ⟨htrace, ?_⟩
  rw [htrace]
  simp [List.chain'_cons]

/-- Does a service result carry an `AccountBalanceMismatch` error? -/
def isAccountBalanceMismatchResult : Except Err Unit → Bool
  | .error (.accountBalanceMismatch _ _ _) => true
  | _ => false

/-- C7 (amended): a self-transfer of a positive amount in the account's
currency, covered by the balance (or on a cashbook), against a state
whose ledger is balanced per currency and coherent with the account,
fails the post-write I2 check with `AccountBalanceMismatch` — the two
in-memory copies diverge and only the last `Save` wins — and the unit of
work rolls back, leaving the state untouched. -/
theorem C7_amended_self_transfer (sup : IdSupply) (db : Db) (a : Account)
    (m : Money) (now : ℕ)
    (hmem : dbGetForUpdate db a.id = .ok a)
    (hcur : m.currency = a.balance.currency)
    (hpos : 0 < m.amount)
    (hfunds : a.IsCashbook = true ∨ m.amount ≤ a.balance.amount)
    (hI1 : ∀ c, ledgerSumCurrency db c = 0)
    (hI2 : ledgerSumAccount db a.id = a.balance.amount) :
    ServiceTransfer sup db ⟨a.id, a.id, m, now⟩ =
      (.error (.accountBalanceMismatch a.id
          (a.balance.amount - m.amount) a.balance.amount),
       db, [a.id, a.id]) := by
  have hexec : TransferServiceExecute sup a a m now =
      .ok (NewTransferDetails sup.detailsId sup.txId a.id a.id m now,
           { a with balance := ⟨a.balance.amount - m.amount, a.balance.currency⟩ },
           { a with balance := ⟨a.balance.amount + m.amount, a.balance.currency⟩ }) := by
    rw [TransferServiceExecute, if_neg (by simp [Money.IsNegative, hpos.not_lt]),
      Account.debit_ok a m hcur hfunds, Account.credit_ok a m hcur]
  have hins : transfersInsert sup.l1 sup.l2 db
      (NewTransferDetails sup.detailsId sup.txId a.id a.id m now) =
      .ok { db with
        transactions := db.transactions ++ [⟨sup.txId, .transfer, a.id, now⟩],
        transferRows := db.transferRows ++
          [NewTransferDetails sup.detailsId sup.txId a.id a.id m now],
        ledger := db.ledger ++
          [⟨sup.l1, sup.txId, a.id, ⟨-m.amount, m.currency⟩, now⟩,
           ⟨sup.l2, sup.txId, a.id, m, now⟩] } := by
    rw [transfersInsert, if_neg (by simp [NewTransferDetails, hpos]), getLedgerEntry_ok]
    rfl
  have hledext : ∀ db' : Db,
      db'.ledger = db.ledger ++
        [⟨sup.l1, sup.txId, a.id, ⟨-m.amount, m.currency⟩, now⟩,
         ⟨sup.l2, sup.txId, a.id, m, now⟩] →
      checkLedgerBalanceByCurrency db' = .ok () ∧
      ledgerSumAccount db' a.id = a.balance.amount := by
    intro db' hdb'
    constructor
    · apply checkLedgerBalanceByCurrency_ok
      intro c
      rw [ledgerSumCurrency, hdb', sumAmountsCurrency_append]
      have h2 : sumAmountsCurrency
          [⟨sup.l1, sup.txId, a.id, ⟨-m.amount, m.currency⟩, now⟩,
           ⟨sup.l2, sup.txId, a.id, m, now⟩] c = 0 := by
        by_cases hc : m.currency = c
        · simp [sumAmountsCurrency, hc]
        · simp [sumAmountsCurrency, hc]
      rw [h2]
      have := hI1 c
      rw [ledgerSumCurrency] at this
      rw [this]
      norm_num
    · rw [ledgerSumAccount, hdb', sumAmountsAccount_append]
      have h2 : sumAmountsAccount
          [⟨sup.l1, sup.txId, a.id, ⟨-m.amount, m.currency⟩, now⟩,
           ⟨sup.l2, sup.txId, a.id, m, now⟩] a.id = 0 := by
        simp [sumAmountsAccount]
      rw [h2]
      have := hI2
      rw [ledgerSumAccount] at this
      rw [this]
      norm_num
  simp only [ServiceTransfer, hmem, hexec, hins]
  have hdb3 := hledext
    (dbSave (dbSave { db with
        transactions := db.transactions ++ [⟨sup.txId, .transfer, a.id, now⟩],
        transferRows := db.transferRows ++
          [NewTransferDetails sup.detailsId sup.txId a.id a.id m now],
        ledger := db.ledger ++
          [⟨sup.l1, sup.txId, a.id, ⟨-m.amount, m.currency⟩, now⟩,
           ⟨sup.l2, sup.txId, a.id, m, now⟩] }
      { a with balance := ⟨a.balance.amount - m.amount, a.balance.currency⟩ })
      { a with balance := ⟨a.balance.amount + m.amount, a.balance.currency⟩ })
    (by rw [dbSave_ledger, dbSave_ledger])
  rw [hdb3.1]
  have hmis : checkAccountLedgerConsistency
      (dbSave (dbSave { db with
          transactions := db.transactions ++ [⟨sup.txId, .transfer, a.id, now⟩],
          transferRows := db.transferRows ++
            [NewTransferDetails sup.detailsId sup.txId a.id a.id m now],
          ledger := db.ledger ++
            [⟨sup.l1, sup.txId, a.id, ⟨-m.amount, m.currency⟩, now⟩,
             ⟨sup.l2, sup.txId, a.id, m, now⟩] }
        { a with balance := ⟨a.balance.amount - m.amount, a.balance.currency⟩ })
        { a with balance := ⟨a.balance.amount + m.amount, a.balance.currency⟩ })
      { a with balance := ⟨a.balance.amount - m.amount, a.balance.currency⟩ } =
      .error (.accountBalanceMismatch a.id
        (a.balance.amount - m.amount) a.balance.amount) := by
    rw [checkAccountLedgerConsistency]
    have hne' : ¬ (ledgerSumAccount
        (dbSave (dbSave { db with
            transactions := db.transactions ++ [⟨sup.txId, .transfer, a.id, now⟩],
            transferRows := db.transferRows ++
              [NewTransferDetails sup.detailsId sup.txId a.id a.id m now],
            ledger := db.ledger ++
              [⟨sup.l1, sup.txId, a.id, ⟨-m.amount, m.currency⟩, now⟩,
               ⟨sup.l2, sup.txId, a.id, m, now⟩] }
          { a with balance := ⟨a.balance.amount - m.amount, a.balance.currency⟩ })
          { a with balance := ⟨a.balance.amount + m.amount, a.balance.currency⟩ })
        ({ a with balance := ⟨a.balance.amount - m.amount, a.balance.currency⟩} : Account).id =
        ({ a with balance := ⟨a.balance.amount - m.amount, a.balance.currency⟩} : Account).balance.amount) := by
      show ¬ (ledgerSumAccount _ a.id = a.balance.amount - m.amount)
      rw [hdb3.2]
      intro heq
      have : m.amount = 0 := by linarith
      exact absurd this hpos.ne'
    rw [if_pos hne', hdb3.2]
  rw [hmis]

/-- C7 witness: a self-transfer of 100 USD on a consistent seeded state
(user balance 1000, cashbook −1000) fails with
`AccountBalanceMismatch(1, 900, 1000)` and leaves the state untouched,
locks being [1, 1]. -/
theorem C7_amended_self_transfer_witness :
    ServiceTransfer ⟨80, 81, 82, 83, 84, 85⟩
      ⟨[⟨1, 2, ⟨1000, CurrencyUSD⟩⟩, ⟨CashbookUSD, CashbookUserID, ⟨-1000, CurrencyUSD⟩⟩],
        [], [], [],
        [⟨9, 8, 1, ⟨1000, CurrencyUSD⟩, 7⟩, ⟨10, 8, CashbookUSD, ⟨-1000, CurrencyUSD⟩, 7⟩]⟩
      ⟨1, 1, ⟨100, CurrencyUSD⟩, 9⟩ =
    (.error (.accountBalanceMismatch 1 900 1000),
     ⟨[⟨1, 2, ⟨1000, CurrencyUSD⟩⟩, ⟨CashbookUSD, CashbookUserID, ⟨-1000, CurrencyUSD⟩⟩],
        [], [], [],
        [⟨9, 8, 1, ⟨1000, CurrencyUSD⟩, 7⟩, ⟨10, 8, CashbookUSD, ⟨-1000, CurrencyUSD⟩, 7⟩]⟩,
     [1, 1]) := by
  have h := C7_amended_self_transfer ⟨80, 81, 82, 83, 84, 85⟩
    ⟨[⟨1, 2, ⟨1000, CurrencyUSD⟩⟩, ⟨CashbookUSD, CashbookUserID, ⟨-1000, CurrencyUSD⟩⟩],
      [], [], [],
      [⟨9, 8, 1, ⟨1000, CurrencyUSD⟩, 7⟩, ⟨10, 8, CashbookUSD, ⟨-1000, CurrencyUSD⟩, 7⟩]⟩
    ⟨1, 2, ⟨1000, CurrencyUSD⟩⟩ ⟨100, CurrencyUSD⟩ 9
    rfl rfl (by norm_num) (by right; norm_num)
    (by
      intro c
      by_cases hc : (CurrencyUSD : Currency) = c
      · subst hc
        norm_num [ledgerSumCurrency, sumAmountsCurrency, List.filter_cons]
      · have hb : (CurrencyUSD == c) = false := beq_eq_false_iff_ne.mpr hc
        simp [ledgerSumCurrency, sumAmountsCurrency, List.filter_cons, hb])
    (by norm_num [ledgerSumAccount, sumAmountsAccount, List.filter_cons, CashbookUSD])
  rw [h]
  norm_num

/-- C7 counterexample: a self-transfer with positive amount 100 against
balance 50 returns `InsufficientFunds`, not the claimed
`AccountBalanceMismatch` — the claim's "every positive self-transfer"
fails without a sufficient-funds proviso. -/
theorem C7_counterexample_self_transfer_insufficient :
    (ServiceTransfer ⟨80, 81, 82, 83, 84, 85⟩
        ⟨[⟨1, 2, ⟨50, CurrencyUSD⟩⟩], [], [], [], []⟩
        ⟨1, 1, ⟨100, CurrencyUSD⟩, 9⟩).1 =
      .error (.insufficientFunds 1 100 50) ∧
    isAccountBalanceMismatchResult
      ((ServiceTransfer ⟨80, 81, 82, 83, 84, 85⟩
          ⟨[⟨1, 2, ⟨50, CurrencyUSD⟩⟩], [], [], [], []⟩
          ⟨1, 1, ⟨100, CurrencyUSD⟩, 9⟩).1) = false := by
  have h1 : dbGetForUpdate ⟨[⟨1, 2, ⟨50, CurrencyUSD⟩⟩], [], [], [], []⟩ 1 =
      .ok ⟨1, 2, ⟨50, CurrencyUSD⟩⟩ := rfl
  have hdeb : Account.Debit ⟨1, 2, ⟨50, CurrencyUSD⟩⟩ ⟨100, CurrencyUSD⟩ =
      .error (.insufficientFunds 1 100 50) := by
    rw [Account.Debit, if_pos ⟨by decide, by norm_num⟩]
  have hexec : TransferServiceExecute ⟨80, 81, 82, 83, 84, 85⟩
      ⟨1, 2, ⟨50, CurrencyUSD⟩⟩ ⟨1, 2, ⟨50, CurrencyUSD⟩⟩ ⟨100, CurrencyUSD⟩ 9 =
      .error (.insufficientFunds 1 100 50) := by
    rw [TransferServiceExecute, if_neg (by norm_num [Money.IsNegative]), hdeb]
  have hres : (ServiceTransfer ⟨80, 81, 82, 83, 84, 85⟩
      ⟨[⟨1, 2, ⟨50, CurrencyUSD⟩⟩], [], [], [], []⟩
      ⟨1, 1, ⟨100, CurrencyUSD⟩, 9⟩).1 = .error (.insufficientFunds 1 100 50) := by
    simp only [ServiceTransfer, h1, hexec]
  refine ⟨hres, ?_⟩
  rw [hres]
  rfl

end MiniBanking
